import Mathlib

/-!
Shallow embedding of the natal-chart backend (`src/main.py`).

Python semantics conventions used throughout:
* Python `str` values are Lean `String`s; string parsing walks the
  underlying character list (`String.data`) so that everything reduces.
  `int(...)` is modelled for ASCII digit strings (optional surrounding
  whitespace, optional sign, underscore digit separators), which covers
  every input that the claims mention.
* Python floats are modelled as exact rationals (`ℚ`); `//` on floats is
  floored division, `%` on ints is Python's floored modulo, which for a
  positive modulus agrees with Lean's `Int.emod`.
* A raised exception is an `Except.error` carrying the exception class.
  `main.py` installs no exception handler, so an `Except.error` escaping
  `calculate_natal_chart` is an uncaught exception (the hosting FastAPI
  layer turns those into HTTP 500 responses).
* The Swiss Ephemeris oracle (`swe.calc_ut`, `swe.houses`) is an abstract
  parameter; `swe.julday` is deterministic arithmetic and is modelled
  concretely from the library's published algorithm.
-/

namespace NatalChart

/-- Python exception classes that can escape the code under `src/main.py`. -/
inductive PyErr where
  | valueError
  | overflowError
  | indexError
  deriving DecidableEq, Repr

/-- The fixed localized sign list `SIGNS_RU` from `main.py`. -/
def SIGNS_RU : List String :=
  ["Овен", "Телец", "Близнецы", "Рак", "Лев", "Дева",
   "Весы", "Скорпион", "Стрелец", "Козерог", "Водолей", "Рыбы"]

/-- Python `lon // 30 % 12` for a float `lon`: `int(lon // 30)` is the floor
of `lon / 30` (already integral, so `int` truncation is exact), and `% 12`
is Python's floored modulo, i.e. `Int.emod`. -/
def signIndex (lon : ℚ) : ℤ := ⌊lon / 30⌋ % 12

/-- `_sign_from_longitude` from `main.py` (leading underscore dropped).
`SIGNS_RU[index]` with `index ∈ [0, 12)` is a plain list lookup; the
bounds are proved in the C1 theorem, so the `getD` default is unreachable. -/
def sign_from_longitude (lon : ℚ) : String :=
  SIGNS_RU.getD (signIndex lon).toNat ""

/-- Python `s.split(sep)` for a one-character separator, accumulator form. -/
def pySplitAux (sep : Char) : List Char → List Char → List (List Char)
  | [], acc => [acc.reverse]
  | c :: cs, acc =>
      if c = sep then acc.reverse :: pySplitAux sep cs []
      else pySplitAux sep cs (c :: acc)

/-- Python `s.split(sep)` (one-character separator, no maxsplit). -/
def pySplit (sep : Char) (s : List Char) : List (List Char) :=
  pySplitAux sep s []

/-- Digit-run parser for Python `int`: after the first digit, single
underscores may separate digits (`int("1_0") == 10`). -/
def pyDigitsAux (acc : ℕ) : List Char → Option ℕ
  | [] => some acc
  | '_' :: c :: cs =>
      if c.isDigit then pyDigitsAux (acc * 10 + (c.toNat - 48)) cs else none
  | ['_'] => none
  | c :: cs =>
      if c.isDigit then pyDigitsAux (acc * 10 + (c.toNat - 48)) cs else none

/-- Nonempty ASCII digit run with underscore separators. -/
def pyDigits : List Char → Option ℕ
  | [] => none
  | c :: cs =>
      if c.isDigit then pyDigitsAux (c.toNat - 48) cs else none

/-- Strip leading and trailing whitespace, as Python `int` does. -/
def pyStripWs (l : List Char) : List Char :=
  ((l.dropWhile Char.isWhitespace).reverse.dropWhile Char.isWhitespace).reverse

/-- Python `int(s)` on ASCII input: optional surrounding whitespace, optional
sign, nonempty digit run (underscore separators allowed); raises
`ValueError` otherwise. -/
def pyInt (s : List Char) : Except PyErr ℤ :=
  match pyStripWs s with
  | '+' :: rest =>
      match pyDigits rest with
      | some n => .ok (n : ℤ)
      | none => .error .valueError
  | '-' :: rest =>
      match pyDigits rest with
      | some n => .ok (-(n : ℤ))
      | none => .error .valueError
  | rest =>
      match pyDigits rest with
      | some n => .ok (n : ℤ)
      | none => .error .valueError

/-- Python `a, b, c = map(int, parts)`.  Every failure (an element that is
not an int literal, too few parts, too many parts) raises `ValueError`,
matching Python's lazy unpacking up to the message text. -/
def pyUnpack3Int (parts : List (List Char)) : Except PyErr (ℤ × ℤ × ℤ) :=
  match parts with
  | [a, b, c] =>
      match pyInt a, pyInt b, pyInt c with
      | .ok x, .ok y, .ok z => .ok (x, y, z)
      | _, _, _ => .error .valueError
  | _ => .error .valueError

/-- Python `a, b = map(int, parts)`. -/
def pyUnpack2Int (parts : List (List Char)) : Except PyErr (ℤ × ℤ) :=
  match parts with
  | [a, b] =>
      match pyInt a, pyInt b with
      | .ok x, .ok y => .ok (x, y)
      | _, _ => .error .valueError
  | _ => .error .valueError

/-- Python truthiness of `Optional[str]`: `None` and `""` are falsy. -/
def pyTruthy : Option String → Bool
  | none => false
  | some s => !(s == "")

/-- Gregorian leap-year rule (proleptic, as Python `datetime` uses). -/
def isLeapYear (y : ℤ) : Bool :=
  (y % 4 == 0 && y % 100 != 0) || y % 400 == 0

/-- Days in a month, as validated by the `datetime` constructor. -/
def daysInMonth (y m : ℤ) : ℤ :=
  if m = 2 then (if isLeapYear y then 29 else 28)
  else if m = 4 ∨ m = 6 ∨ m = 9 ∨ m = 11 then 30
  else 31

/-- Days from 1970-01-01 to the given proleptic-Gregorian civil date
(Howard Hinnant's `days_from_civil`, floored-division form). -/
def daysFromCivil (y m d : ℤ) : ℤ :=
  let y' := if m ≤ 2 then y - 1 else y
  let era := y' / 400
  let yoe := y' - era * 400
  let doy := (153 * (if 2 < m then m - 3 else m + 9) + 2) / 5 + d - 1
  let doe := yoe * 365 + yoe / 4 - yoe / 100 + doy
  era * 146097 + doe - 719468

/-- Civil date from days since 1970-01-01 (Hinnant's `civil_from_days`,
floored-division form). -/
def civilFromDays (z' : ℤ) : ℤ × ℤ × ℤ :=
  let z := z' + 719468
  let era := z / 146097
  let doe := z - era * 146097
  let yoe := (doe - doe / 1460 + doe / 36524 - doe / 146096) / 365
  let y := yoe + era * 400
  let doy := doe - (365 * yoe + yoe / 4 - yoe / 100)
  let mp := (5 * doy + 2) / 153
  let d := doy - (153 * mp + 2) / 5 + 1
  let m := mp + (if mp < 10 then 3 else -9)
  (if m ≤ 2 then y + 1 else y, m, d)

/-- The aware local datetime built by `_parse_local_datetime`: calendar
fields plus the fixed utcoffset in hours (`tzinfo=timezone(timedelta(...))`).
Seconds and microseconds are zero by construction. -/
structure LocalDT where
  year : ℤ
  month : ℤ
  day : ℤ
  hour : ℤ
  minute : ℤ
  tz : ℚ
  deriving DecidableEq, Repr

/-- The UTC datetime produced by `astimezone(timezone.utc)`; `second` is the
whole-second field (microseconds are dropped by `_julday_utc`). -/
structure UtcDT where
  year : ℤ
  month : ℤ
  day : ℤ
  hour : ℤ
  minute : ℤ
  second : ℤ
  deriving DecidableEq, Repr

/-- Seconds from the epoch 1970-01-01 00:00 to naive civil time
`y-m-d hour:minute`. -/
def toAbsSec (y m d hh mi : ℤ) : ℤ :=
  86400 * daysFromCivil y m d + 3600 * hh + 60 * mi

/-- `timezone(timedelta(hours=tz))`: valid iff the offset is strictly
between -24 and +24 hours, else `ValueError`. -/
def pyTimezoneOK (tz : ℚ) : Prop := -24 < tz ∧ tz < 24

instance (tz : ℚ) : Decidable (pyTimezoneOK tz) := by
  unfold pyTimezoneOK; infer_instance

/-- The `datetime(year, month, day, hours, minutes, tzinfo=offset)`
constructor: field-range validation, then the aware value. -/
def pyDatetime (y m d hh mi : ℤ) (tz : ℚ) : Except PyErr LocalDT :=
  if 1 ≤ y ∧ y ≤ 9999 ∧ 1 ≤ m ∧ m ≤ 12 ∧ 1 ≤ d ∧ d ≤ daysInMonth y m
      ∧ 0 ≤ hh ∧ hh ≤ 23 ∧ 0 ≤ mi ∧ mi ≤ 59 then
    .ok (LocalDT.mk y m d hh mi tz)
  else .error .valueError

/-- `_parse_local_datetime` from `main.py` (leading underscore dropped):
split/parse the date, then the time (defaulting to 12:00 when `birth_time`
is falsy), then build `timezone(timedelta(hours=tz_offset_hours))` and the
aware `datetime`. -/
def parse_local_datetime (birth_date : String) (birth_time : Option String)
    (tz_offset_hours : ℚ) : Except PyErr LocalDT :=
  match pyUnpack3Int (pySplit '-' birth_date.data) with
  | .error e => .error e
  | .ok (year, month, day) =>
      match (if pyTruthy birth_time then
               pyUnpack2Int (pySplit ':' (birth_time.getD "").data)
             else .ok (12, 0)) with
      | .error e => .error e
      | .ok (hours, minutes) =>
          if pyTimezoneOK tz_offset_hours then
            pyDatetime year month day hours minutes tz_offset_hours
          else .error .valueError

/-- Decompose an absolute instant (seconds from the 1970 epoch, rational) into
UTC calendar fields; raises `OverflowError` when the result leaves
`datetime`'s year range. -/
def utcFromAbs (a : ℚ) : Except PyErr UtcDT :=
  let days : ℤ := ⌊a / 86400⌋
  let rem : ℚ := a - 86400 * (days : ℚ)
  let hh : ℤ := ⌊rem / 3600⌋
  let mi : ℤ := ⌊(rem - 3600 * (hh : ℚ)) / 60⌋
  let ss : ℤ := ⌊rem - 3600 * (hh : ℚ) - 60 * (mi : ℚ)⌋
  match civilFromDays days with
  | (yy, mm, dd) =>
      if 1 ≤ yy ∧ yy ≤ 9999 then .ok (UtcDT.mk yy mm dd hh mi ss)
      else .error .overflowError

/-- `dt_local.astimezone(timezone.utc)`: subtract the fixed offset from the
absolute instant and decompose back into UTC calendar fields. -/
def astimezone_utc (dt : LocalDT) : Except PyErr UtcDT :=
  utcFromAbs ((toAbsSec dt.year dt.month dt.day dt.hour dt.minute : ℚ) - 3600 * dt.tz)

/-- `swe.julday(year, month, day, hour, gregflag)`, modelled from the Swiss
Ephemeris library's published `swe_julday` algorithm (the oracle's
deterministic time conversion; exact rationals replace C doubles, which are
exact here for the `365.25` multiple and absorbed by the `+ 0.000001`
guard for the `30.6` multiple). -/
def swe_julday (year month day : ℤ) (hour : ℚ) (gregflag : Bool) : ℚ :=
  let u : ℤ := if month < 3 then year - 1 else year
  let u0 : ℤ := u + 4712
  let u1 : ℤ := if month + 1 < 4 then month + 1 + 12 else month + 1
  let jd : ℚ := (⌊(u0 : ℚ) * 365.25⌋ : ℤ) + (⌊30.6 * (u1 : ℚ) + 0.000001⌋ : ℤ)
      + (day : ℚ) + hour / 24 - 63.5
  if gregflag then
    let u2 : ℤ := if u < 0 then -(⌊(|u| : ℚ) / 100⌋ - ⌊(|u| : ℚ) / 400⌋)
                  else ⌊(|u| : ℚ) / 100⌋ - ⌊(|u| : ℚ) / 400⌋
    let jd' := jd - (u2 : ℚ) + 2
    if u < 0 ∧ (u : ℚ) / 100 = (⌊(u : ℚ) / 100⌋ : ℤ) ∧ ¬((u : ℚ) / 400 = (⌊(u : ℚ) / 400⌋ : ℤ)) then
      jd' - 1
    else jd'
  else jd

/-- The `swe.julday` call of `_julday_utc` on the UTC fields (or the
propagated exception): `hour + minute / 60 + second / 3600` is the decimal
hour, and `swe.GREG_CAL` is passed. -/
def juldayFromUtc : Except PyErr UtcDT → Except PyErr ℚ
  | .error e => .error e
  | .ok u =>
      .ok (swe_julday u.year u.month u.day
        ((u.hour : ℚ) + (u.minute : ℚ) / 60 + (u.second : ℚ) / 3600) true)

/-- `_julday_utc` from `main.py` (leading underscore dropped): convert the
aware local datetime to UTC, then call `swe.julday` with the decimal hour
and the Gregorian flag. -/
def julday_utc (dt : LocalDT) : Except PyErr ℚ :=
  juldayFromUtc (astimezone_utc dt)

/-- The spec's Time Normalizer operation: `_parse_local_datetime` followed
by `_julday_utc`, exactly as `calculate_natal_chart` composes them. -/
def normalize (birth_date : String) (birth_time : Option String)
    (tz_offset_hours : ℚ) : Except PyErr ℚ :=
  match parse_local_datetime birth_date birth_time tz_offset_hours with
  | .error e => .error e
  | .ok dt => julday_utc dt

/-- Request model (`NatalRequest` in `main.py`). -/
structure NatalRequest where
  name : Option String
  birth_date : String
  birth_time : Option String
  time_unknown : Bool
  latitude : ℚ
  longitude : ℚ
  tz_offset_hours : ℚ
  deriving DecidableEq, Repr

/-- Output entity (`PlanetPosition` in `main.py`). -/
structure PlanetPosition where
  name : String
  sign : String
  longitude : ℚ
  deriving DecidableEq, Repr

/-- Response model (`NatalResponse` in `main.py`). -/
structure NatalResponse where
  sun_sign : String
  moon_sign : String
  ascendant_sign : String
  ascendant_degree : ℚ
  planets : List PlanetPosition
  deriving DecidableEq, Repr

/-- The external ephemeris oracle: `swe.calc_ut` returns the position tuple
for a body, `swe.houses` returns the `(cusps, ascmc)` pair.  Either call
may raise. -/
structure Ephemeris where
  calc_ut : ℚ → ℤ → Except PyErr (List ℚ)
  houses : ℚ → ℚ → ℚ → String → Except PyErr (List ℚ × List ℚ)

/-- `swe.SUN`. -/
def SE_SUN : ℤ := 0

/-- `swe.MOON`. -/
def SE_MOON : ℤ := 1

/-- Python `x, *_ = t`: first element of a sequence, `ValueError` if empty. -/
def pyStarHead (xs : List ℚ) : Except PyErr ℚ :=
  match xs with
  | [] => .error .valueError
  | x :: _ => .ok x

/-- Python `t[0]`: first element, `IndexError` if empty. -/
def pyIndex0 (xs : List ℚ) : Except PyErr ℚ :=
  match xs with
  | [] => .error .indexError
  | x :: _ => .ok x

/-- The request handler `calculate_natal_chart` from `main.py`, with the
ephemeris oracle as a parameter.  `swe.set_ephe_path(".")` only mutates
process-wide oracle configuration and is not observable in this model. -/
def calculate_natal_chart (E : Ephemeris) (p : NatalRequest) :
    Except PyErr NatalResponse :=
  match parse_local_datetime p.birth_date p.birth_time p.tz_offset_hours with
  | .error e => .error e
  | .ok dt =>
      match julday_utc dt with
      | .error e => .error e
      | .ok jd =>
          match E.calc_ut jd SE_SUN with
          | .error e => .error e
          | .ok sunxx =>
              match pyStarHead sunxx with
              | .error e => .error e
              | .ok sun_lon =>
                  match E.calc_ut jd SE_MOON with
                  | .error e => .error e
                  | .ok moonxx =>
                      match pyStarHead moonxx with
                      | .error e => .error e
                      | .ok moon_lon =>
                          match E.houses jd p.latitude p.longitude "P" with
                          | .error e => .error e
                          | .ok (_houses, ascmc) =>
                              match pyIndex0 ascmc with
                              | .error e => .error e
                              | .ok asc_deg =>
                                  .ok (NatalResponse.mk
                                    (sign_from_longitude sun_lon)
                                    (sign_from_longitude moon_lon)
                                    (sign_from_longitude asc_deg)
                                    asc_deg
                                    [PlanetPosition.mk "Солнце" (sign_from_longitude sun_lon) sun_lon,
                                     PlanetPosition.mk "Луна" (sign_from_longitude moon_lon) moon_lon])

/-- Modelled from the spec: "the standard Julian-day algorithm" that the
Time Normalizer must reproduce.  This is the classical Fliegel–Van Flandern
Julian day number of a proleptic-Gregorian date (the JDN labels the day
starting at the preceding noon). -/
def julianDayNumber (y m d : ℤ) : ℤ :=
  let a := (14 - m) / 12
  let yy := y + 4800 - a
  let mm := m + 12 * a - 3
  d + (153 * mm + 2) / 5 + 365 * yy + yy / 4 - yy / 100 + yy / 400 - 32045

/-- Modelled from the spec: the reference Julian day of a UTC instant,
`JDN - 1/2 + secondsOfDay / 86400` (the Julian day starts at noon, so civil
midnight is half a day earlier). -/
def referenceJD (y m d : ℤ) (secOfDay : ℚ) : ℚ :=
  ((julianDayNumber y m d : ℤ) : ℚ) - 1 / 2 + secOfDay / 86400



/-! ## Helper lemmas -/

/-- Floor of an integer times `365.25` is floored division by 4. -/
lemma floor_mul_36525 (x : ℤ) : ⌊(x : ℚ) * 365.25⌋ = 1461 * x / 4 := by
  have h : (x : ℚ) * 365.25 = ((1461 * x : ℤ) : ℚ) / ((4 : ℕ) : ℚ) := by push_cast; ring
  rw [h, Rat.floor_intCast_div_natCast]
  norm_num

/-- Floor of `30.6 * x + 0.000001` for an integer `x` is floored division
of `306 * x` by 10 (the `0.000001` guard never crosses an integer because
`306 * x / 10` has one decimal digit). -/
lemma floor_306_mul (x : ℤ) : ⌊30.6 * (x : ℚ) + 0.000001⌋ = 306 * x / 10 := by
  have h26 : (30.6 : ℚ) * x + 0.000001 = ((306 * x : ℤ) : ℚ) / 10 + 1 / 1000000 := by
    push_cast; ring_nf
  rw [h26]
  have hd := Int.ediv_add_emod (306 * x) 10
  have h0 : 0 ≤ 306 * x % 10 := Int.emod_nonneg _ (by norm_num)
  have hq : ((306 * x : ℤ) : ℚ) = 10 * ((306 * x / 10 : ℤ) : ℚ) + ((306 * x % 10 : ℤ) : ℚ) := by
    exact_mod_cast hd.symm
  rw [Int.floor_eq_iff]
  have hr0 : (0 : ℚ) ≤ ((306 * x % 10 : ℤ) : ℚ) := by exact_mod_cast h0
  have hr9 : ((306 * x % 10 : ℤ) : ℚ) ≤ 9 := by
    exact_mod_cast (by omega : 306 * x % 10 ≤ 9)
  constructor
  · rw [hq]; linarith
  · rw [hq]; linarith

/-- Floor of an integer over 100 is its floored division by 100. -/
lemma floor_intdiv_100 (x : ℤ) : ⌊(x : ℚ) / 100⌋ = x / 100 := by
  have h : (x : ℚ) / 100 = (x : ℚ) / ((100 : ℕ) : ℚ) := by norm_num
  rw [h, Rat.floor_intCast_div_natCast]
  norm_num

/-- Floor of an integer over 400 is its floored division by 400. -/
lemma floor_intdiv_400 (x : ℤ) : ⌊(x : ℚ) / 400⌋ = x / 400 := by
  have h : (x : ℚ) / 400 = (x : ℚ) / ((400 : ℕ) : ℚ) := by norm_num
  rw [h, Rat.floor_intCast_div_natCast]
  norm_num

/-- Worked evaluation of the sign mapper at a known index. -/
lemma sign_from_longitude_eval (lon : ℚ) (k : ℤ) (h : signIndex lon = k) :
    sign_from_longitude lon = SIGNS_RU.getD k.toNat "" := by
  unfold sign_from_longitude
  rw [h]


/-! ## Claim theorems -/

/-- C1: the sign mapper satisfies the spec's boundary table:
`sign_of(0) = "Овен"`, `sign_of(29.999) = "Овен"`, `sign_of(30) = "Телец"`,
`sign_of(-0.001) = sign_of(359.999) = "Рыбы"`; and for every longitude the
index `int(lon // 30) % 12` is non-negative and below 12, so a negative
longitude maps to the last sign via floored division and the list lookup
never raises or sees a negative index. -/
theorem sign_mapper_boundary_table :
    sign_from_longitude 0 = "Овен" ∧
    sign_from_longitude 29.999 = "Овен" ∧
    sign_from_longitude 30 = "Телец" ∧
    sign_from_longitude (-0.001) = "Рыбы" ∧
    sign_from_longitude 359.999 = "Рыбы" ∧
    ∀ lon : ℚ, 0 ≤ signIndex lon ∧ signIndex lon < 12 := by
  refine ⟨?_, ?_, ?_, ?_, ?_, fun lon =>
    ⟨Int.emod_nonneg _ (by norm_num), Int.emod_lt_of_pos _ (by norm_num)⟩⟩
  · exact (sign_from_longitude_eval 0 0 (by norm_num [signIndex])).trans (by decide)
  · exact (sign_from_longitude_eval 29.999 0 (by norm_num [signIndex])).trans (by decide)
  · exact (sign_from_longitude_eval 30 1 (by norm_num [signIndex])).trans (by decide)
  · exact (sign_from_longitude_eval (-0.001) 11 (by norm_num [signIndex])).trans (by decide)
  · exact (sign_from_longitude_eval 359.999 11 (by norm_num [signIndex])).trans (by decide)

/-- C3: the sign mapper is total and cyclic: for every longitude `L`,
`sign_of(L) = sign_of(L + 360)`. -/
theorem sign_mapper_cyclic (L : ℚ) :
    sign_from_longitude L = sign_from_longitude (L + 360) := by
  suffices h : signIndex L = signIndex (L + 360) by
    unfold sign_from_longitude
    rw [h]
  unfold signIndex
  have h1 : (L + 360) / 30 = L / 30 + ((12 : ℤ) : ℚ) := by push_cast; ring
  rw [h1, Int.floor_add_int]
  omega

/-- C4: for every date string and offset, normalization with an absent
`birth_time` equals normalization with `birth_time = "12:00"` (the
unknown-time default substitutes 12:00). -/
theorem normalize_default_noon (birth_date : String) (tz : ℚ) :
    normalize birth_date none tz = normalize birth_date (some "12:00") tz := by
  unfold normalize parse_local_datetime
  rcases h : pyUnpack3Int (pySplit '-' birth_date.data) with e | v
  · rfl
  · obtain ⟨y, mo, d⟩ := v
    rfl

/-- C10: an empty-string `birth_time` is treated exactly like an absent one
(`if birth_time:` is falsy for `""`), so the noon default is substituted and
the whole request computes identically. -/
theorem empty_birth_time_like_absent (E : Ephemeris) (nm : Option String)
    (bd : String) (tu : Bool) (lat lon tz : ℚ) :
    calculate_natal_chart E (NatalRequest.mk nm bd (some "") tu lat lon tz)
      = calculate_natal_chart E (NatalRequest.mk nm bd none tu lat lon tz) := rfl

/-- C8: the response does not depend on the `time_unknown` field: two
requests identical except for `time_unknown` get identical results. -/
theorem time_unknown_noninterference (E : Ephemeris) (nm : Option String)
    (bd : String) (bt : Option String) (tu tu' : Bool) (lat lon tz : ℚ) :
    calculate_natal_chart E (NatalRequest.mk nm bd bt tu lat lon tz)
      = calculate_natal_chart E (NatalRequest.mk nm bd bt tu' lat lon tz) := rfl

/-- C2 (failing-input evaluation): with the malformed date `"2000/01/01"`
the handler raises an uncaught `ValueError` — the hosting framework turns
that into a 500-class response, not the client-input `InvalidDateFormat`
failure the spec requires. -/
theorem malformed_date_uncaught_value_error (E : Ephemeris) (nm bt : Option String)
    (tu : Bool) (lat lon tz : ℚ) :
    calculate_natal_chart E (NatalRequest.mk nm "2000/01/01" bt tu lat lon tz)
      = .error .valueError := rfl

/-- C7 (failing-input evaluation): with a well-formed date but malformed
time `"noon"` the handler raises an uncaught `ValueError` — the same
exception class as date errors, surfaced by the hosting framework as a
500-class response rather than a distinct `InvalidTimeFormat` client-input
failure. -/
theorem malformed_time_uncaught_value_error (E : Ephemeris) (nm : Option String)
    (tu : Bool) (lat lon tz : ℚ) :
    calculate_natal_chart E (NatalRequest.mk nm "2000-01-01" (some "noon") tu lat lon tz)
      = .error .valueError := rfl

/-- `x, *_` unpacking succeeded, so the list is the value followed by a rest. -/
lemma pyStarHead_ok {xs : List ℚ} {x : ℚ} (h : pyStarHead xs = .ok x) :
    ∃ rest, xs = x :: rest := by
  cases xs with
  | nil => exact absurd h (by simp [pyStarHead])
  | cons a rest =>
      simp only [pyStarHead, Except.ok.injEq] at h
      exact ⟨rest, by rw [h]⟩

/-- `t[0]` succeeded, so the list is the value followed by a rest. -/
lemma pyIndex0_ok {xs : List ℚ} {x : ℚ} (h : pyIndex0 xs = .ok x) :
    ∃ rest, xs = x :: rest := by
  cases xs with
  | nil => exact absurd h (by simp [pyIndex0])
  | cons a rest =>
      simp only [pyIndex0, Except.ok.injEq] at h
      exact ⟨rest, by rw [h]⟩

/-- C5: timezone-offset correctness: for every pair of civil datetimes and
integer shift `h` such that the second datetime's clock reading is the
first one's shifted back by `h` hours, normalizing the second at offset 0
yields the same astronomical time as normalizing the first at
`tz_offset_hours = h` (both denote the same UTC instant, so the computed
signs coincide as well). -/
theorem tz_offset_correctness (y1 m1 d1 hh1 mi1 y2 m2 d2 hh2 mi2 h : ℤ)
    (hshift : toAbsSec y2 m2 d2 hh2 mi2 = toAbsSec y1 m1 d1 hh1 mi1 - 3600 * h) :
    julday_utc (LocalDT.mk y2 m2 d2 hh2 mi2 0)
      = julday_utc (LocalDT.mk y1 m1 d1 hh1 mi1 (h : ℚ)) := by
  have key : ((toAbsSec y2 m2 d2 hh2 mi2 : ℤ) : ℚ) - 3600 * (0 : ℚ)
      = ((toAbsSec y1 m1 d1 hh1 mi1 : ℤ) : ℚ) - 3600 * ((h : ℤ) : ℚ) := by
    rw [hshift]; push_cast; ring
  have ha : astimezone_utc (LocalDT.mk y2 m2 d2 hh2 mi2 0)
      = astimezone_utc (LocalDT.mk y1 m1 d1 hh1 mi1 (h : ℚ)) := by
    unfold astimezone_utc
    exact congrArg utcFromAbs key
  exact congrArg juldayFromUtc ha

/-- C5 witness: 2000-01-01 09:00 at UTC+0 and 2000-01-01 12:00 at UTC+3
normalize to the same astronomical time. -/
theorem tz_offset_correctness_witness :
    julday_utc (LocalDT.mk 2000 1 1 9 0 0)
      = julday_utc (LocalDT.mk 2000 1 1 12 0 ((3 : ℤ) : ℚ)) :=
  tz_offset_correctness 2000 1 1 12 0 2000 1 1 9 0 3 (by decide)

/-- A fixed test oracle: the Sun at longitude 280, the Moon at 33, the
ascendant at 100. -/
def testEphemeris : Ephemeris :=
  Ephemeris.mk (fun _ body => if body = SE_SUN then .ok [280] else .ok [33])
    (fun _ _ _ _ => .ok ([], [100]))

/-- The spec's end-to-end scenario request (Moscow, 2000-01-01 12:00 UTC). -/
def testRequest : NatalRequest :=
  NatalRequest.mk none "2000-01-01" (some "12:00") false 55.75 37.62 0

/-- The response the handler computes for `testRequest` under
`testEphemeris`. -/
def testResponse : NatalResponse :=
  NatalResponse.mk "Козерог" "Телец" "Рак" 100
    [PlanetPosition.mk "Солнце" "Козерог" 280,
     PlanetPosition.mk "Луна" "Телец" 33]

/-- Evaluation: the normalizer sends 2000-01-01 12:00 UTC to Julian day
2451545.0. -/
lemma julday_utc_y2000 : julday_utc (LocalDT.mk 2000 1 1 12 0 0) = .ok 2451545 := by
  have habs : ((toAbsSec 2000 1 1 12 0 : ℤ) : ℚ) = 946728000 := by
    exact_mod_cast congrArg (Int.cast : ℤ → ℚ)
      (by decide : toAbsSec 2000 1 1 12 0 = 946728000)
  have hcfd : civilFromDays 10957 = (2000, 1, 1) := by decide
  have h1 : astimezone_utc (LocalDT.mk 2000 1 1 12 0 0) = .ok (UtcDT.mk 2000 1 1 12 0 0) := by
    unfold astimezone_utc utcFromAbs
    norm_num [habs, hcfd]
  unfold julday_utc
  rw [h1]
  norm_num [juldayFromUtc, swe_julday]

/-- Evaluation of the sign mapper at the test longitudes. -/
lemma sign_280 : sign_from_longitude 280 = "Козерог" :=
  (sign_from_longitude_eval 280 9 (by norm_num [signIndex])).trans (by decide)

lemma sign_33 : sign_from_longitude 33 = "Телец" :=
  (sign_from_longitude_eval 33 1 (by norm_num [signIndex])).trans (by decide)

lemma sign_100 : sign_from_longitude 100 = "Рак" :=
  (sign_from_longitude_eval 100 3 (by norm_num [signIndex])).trans (by decide)

/-- The handler computes `testResponse` on the test fixtures. -/
lemma calc_natal_eval :
    calculate_natal_chart testEphemeris testRequest = .ok testResponse := by
  have hparse : parse_local_datetime "2000-01-01" (some "12:00") 0
      = .ok (LocalDT.mk 2000 1 1 12 0 0) := rfl
  simp only [calculate_natal_chart, testEphemeris, testRequest, SE_SUN, SE_MOON,
    pyStarHead, pyIndex0, testResponse, hparse, julday_utc_y2000]
  simp [sign_280, sign_33, sign_100]

/-- C6: every successful response is assembled exactly as the spec says:
`planets` is the two-element list Sun-then-Moon with the localized names
`"Солнце"`, `"Луна"`, each entry carrying the sign mapper of its raw
longitude; `sun_sign`/`moon_sign` are the sign mapper applied to the
oracle's Sun/Moon longitudes, `ascendant_sign` is the sign mapper applied
to the ascendant longitude, and `ascendant_degree` is that raw longitude
itself. -/
theorem response_assembly (E : Ephemeris) (p : NatalRequest) (resp : NatalResponse)
    (hok : calculate_natal_chart E p = .ok resp) :
    ∃ (jd sun_lon moon_lon asc_deg : ℚ) (sunrest moonrest cusps ascrest : List ℚ),
      normalize p.birth_date p.birth_time p.tz_offset_hours = .ok jd ∧
      E.calc_ut jd SE_SUN = .ok (sun_lon :: sunrest) ∧
      E.calc_ut jd SE_MOON = .ok (moon_lon :: moonrest) ∧
      E.houses jd p.latitude p.longitude "P" = .ok (cusps, asc_deg :: ascrest) ∧
      resp = NatalResponse.mk (sign_from_longitude sun_lon) (sign_from_longitude moon_lon)
          (sign_from_longitude asc_deg) asc_deg
          [PlanetPosition.mk "Солнце" (sign_from_longitude sun_lon) sun_lon,
           PlanetPosition.mk "Луна" (sign_from_longitude moon_lon) moon_lon] := by
  unfold calculate_natal_chart at hok
  split at hok
  · exact (Except.noConfusion hok)
  next dt hparse =>
    split at hok
    · exact (Except.noConfusion hok)
    next jd hjd =>
      split at hok
      · exact (Except.noConfusion hok)
      next sunxx hsun =>
        split at hok
        · exact (Except.noConfusion hok)
        next sun_lon hsunhead =>
          split at hok
          · exact (Except.noConfusion hok)
          next moonxx hmoon =>
            split at hok
            · exact (Except.noConfusion hok)
            next moon_lon hmoonhead =>
              split at hok
              · exact (Except.noConfusion hok)
              next cusps ascmc hhouses =>
                split at hok
                · exact (Except.noConfusion hok)
                next asc_deg hasc =>
                  obtain ⟨sunrest, rfl⟩ := pyStarHead_ok hsunhead
                  obtain ⟨moonrest, rfl⟩ := pyStarHead_ok hmoonhead
                  obtain ⟨ascrest, rfl⟩ := pyIndex0_ok hasc
                  refine ⟨jd, sun_lon, moon_lon, asc_deg, sunrest, moonrest, cusps, ascrest,
                    ?_, hsun, hmoon, hhouses, (Except.ok.inj hok).symm⟩
                  unfold normalize
                  rw [hparse]
                  exact hjd

/-- C6 witness: under the fixed test oracle, the Moscow 2000-01-01 12:00
request succeeds and its response has exactly the required shape. -/
theorem response_assembly_witness :
    ∃ (jd sun_lon moon_lon asc_deg : ℚ) (sunrest moonrest cusps ascrest : List ℚ),
      normalize testRequest.birth_date testRequest.birth_time testRequest.tz_offset_hours
        = .ok jd ∧
      testEphemeris.calc_ut jd SE_SUN = .ok (sun_lon :: sunrest) ∧
      testEphemeris.calc_ut jd SE_MOON = .ok (moon_lon :: moonrest) ∧
      testEphemeris.houses jd testRequest.latitude testRequest.longitude "P"
        = .ok (cusps, asc_deg :: ascrest) ∧
      testResponse = NatalResponse.mk (sign_from_longitude sun_lon) (sign_from_longitude moon_lon)
          (sign_from_longitude asc_deg) asc_deg
          [PlanetPosition.mk "Солнце" (sign_from_longitude sun_lon) sun_lon,
           PlanetPosition.mk "Луна" (sign_from_longitude moon_lon) moon_lon] :=
  response_assembly testEphemeris testRequest testResponse calc_natal_eval

/-- C9: the UTC-instant-to-day-count conversion reproduces the standard
Julian-day algorithm exactly: for every UTC datetime (any year Python's
`datetime` can represent, any month 1..12, arbitrary integer day, hour,
minute and second fields), `swe.julday` applied to the decimal hour
`hour + minute/60 + second/3600` with the Gregorian flag equals the
Fliegel-Van Flandern Julian day number minus half a day plus
seconds-of-day over 86400. -/
theorem julday_reproduces_reference (y m d hh mi s : ℤ)
    (hy : 1 ≤ y) (hm1 : 1 ≤ m) (hm2 : m ≤ 12) :
    swe_julday y m d ((hh : ℚ) + (mi : ℚ) / 60 + (s : ℚ) / 3600) true
      = referenceJD y m d ((3600 * hh + 60 * mi + s : ℤ) : ℚ) := by
  have hfrac : ((hh : ℚ) + (mi : ℚ) / 60 + (s : ℚ) / 3600) / 24
      = ((3600 * hh + 60 * mi + s : ℤ) : ℚ) / 86400 := by push_cast; ring
  unfold swe_julday referenceJD julianDayNumber
  simp only []
  by_cases hm3 : m < 3
  · rw [if_pos hm3, if_pos (show m + 1 < 4 by omega),
      if_neg (show ¬(y - 1 < 0) by omega),
      if_neg (show ¬((y - 1 < 0) ∧ ((y - 1 : ℤ) : ℚ) / 100 = ((⌊((y - 1 : ℤ) : ℚ) / 100⌋ : ℤ) : ℚ)
        ∧ ¬(((y - 1 : ℤ) : ℚ) / 400 = ((⌊((y - 1 : ℤ) : ℚ) / 400⌋ : ℤ) : ℚ)))
        from fun hc => absurd hc.1 (by omega))]
    simp only [if_true]
    rw [abs_of_nonneg (show (0 : ℚ) ≤ ((y - 1 : ℤ) : ℚ) by
        exact_mod_cast (by omega : (0 : ℤ) ≤ y - 1)),
      (show (14 - m) / 12 = 1 by omega),
      floor_mul_36525, floor_306_mul, floor_intdiv_100, floor_intdiv_400, hfrac]
    have key : 1461 * (y - 1 + 4712) / 4 + 306 * (m + 1 + 12) / 10 + d
        - ((y - 1) / 100 - (y - 1) / 400) - 61
        = d + (153 * (m + 12 * 1 - 3) + 2) / 5 + 365 * (y + 4800 - 1)
          + (y + 4800 - 1) / 4 - (y + 4800 - 1) / 100 + (y + 4800 - 1) / 400 - 32045 := by
      have h1 : 1461 * (y - 1 + 4712) / 4 = 365 * (y + 4711) + (y + 4711) / 4 := by omega
      have h2 : (y + 4800 - 1) / 4 = (y + 4711) / 4 + 22 := by omega
      have h3 : (y + 4800 - 1) / 100 = (y - 1) / 100 + 48 := by omega
      have h4 : (y + 4800 - 1) / 400 = (y - 1) / 400 + 12 := by omega
      have h5 : 306 * (m + 1 + 12) / 10 = (153 * (m + 12 * 1 - 3) + 2) / 5 + 122 := by omega
      omega
    have key' := congrArg (fun t : ℤ => (t : ℚ)) key
    push_cast at key'
    push_cast
    norm_num at key' ⊢
    linarith [key']
  · rw [if_neg hm3, if_neg (show ¬(m + 1 < 4) by omega),
      if_neg (show ¬(y < 0) by omega),
      if_neg (show ¬((y < 0) ∧ ((y : ℤ) : ℚ) / 100 = ((⌊((y : ℤ) : ℚ) / 100⌋ : ℤ) : ℚ)
        ∧ ¬(((y : ℤ) : ℚ) / 400 = ((⌊((y : ℤ) : ℚ) / 400⌋ : ℤ) : ℚ)))
        from fun hc => absurd hc.1 (by omega))]
    simp only [if_true]
    rw [abs_of_nonneg (show (0 : ℚ) ≤ ((y : ℤ) : ℚ) by
        exact_mod_cast (by omega : (0 : ℤ) ≤ y)),
      (show (14 - m) / 12 = 0 by omega),
      floor_mul_36525, floor_306_mul, floor_intdiv_100, floor_intdiv_400, hfrac]
    have key : 1461 * (y + 4712) / 4 + 306 * (m + 1) / 10 + d
        - (y / 100 - y / 400) - 61
        = d + (153 * (m + 12 * 0 - 3) + 2) / 5 + 365 * (y + 4800 - 0)
          + (y + 4800 - 0) / 4 - (y + 4800 - 0) / 100 + (y + 4800 - 0) / 400 - 32045 := by
      have h1 : 1461 * (y + 4712) / 4 = 365 * (y + 4712) + (y + 4712) / 4 := by omega
      have h2 : (y + 4800 - 0) / 4 = (y + 4712) / 4 + 22 := by omega
      have h3 : (y + 4800 - 0) / 100 = y / 100 + 48 := by omega
      have h4 : (y + 4800 - 0) / 400 = y / 400 + 12 := by omega
      have h5 : 306 * (m + 1) / 10 = (153 * (m + 12 * 0 - 3) + 2) / 5 + 122 := by omega
      omega
    have key' := congrArg (fun t : ℤ => (t : ℚ)) key
    push_cast at key'
    push_cast
    norm_num at key' ⊢
    linarith [key']


/-- C9 witness: 2000-01-01 12:00:00 UTC converts to the reference Julian
day (J2000.0, i.e. 2451545.0). -/
theorem julday_reproduces_reference_witness :
    swe_julday 2000 1 1 (((12 : ℤ) : ℚ) + ((0 : ℤ) : ℚ) / 60 + ((0 : ℤ) : ℚ) / 3600) true
      = referenceJD 2000 1 1 ((3600 * 12 + 60 * 0 + 0 : ℤ) : ℚ) :=
  julday_reproduces_reference 2000 1 1 12 0 0 (by decide) (by decide) (by decide)

end NatalChart
